import Mathlib

/-!
Shallow embedding of the desktop launcher/supervisor core
(`src/desktop/src-tauri/src/main.rs`): the process-supervision state
machine (`start_node`, `stop_node`, `get_node_status`), binary
discovery, the settings store (`save_settings`, `load_settings`,
`get_settings`), and the hardware-info stub.

Effectful Rust code is modelled by explicit state passing over an
environment record that fixes the outcome of each OS interaction
(current-exe resolution, file existence, spawn, kill, filesystem
reads/writes).  A `Child` handle is represented by its pid (`Nat`);
`u32` values are `Nat` with explicit `< 2^32` bounds where the Rust
type enforces them.
-/

/-- JSON values, the target of serde serialization.  Numbers are
restricted to naturals: every number this program ever serializes is a
`u32`, and a file whose content is not valid JSON at all is modelled by
`FileData.malformed` below rather than by a `JsonVal`. -/
inductive JsonVal where
  | str (s : String)
  | num (n : Nat)
  | bool (b : Bool)
  | obj (fields : List (String × JsonVal))
  | arr (elems : List JsonVal)
  | null

/-- `PricingConfig` from main.rs (all fields `u32`). -/
structure PricingConfig where
  gpu_hour_cents : Nat
  cpu_core_hour_cents : Nat
  memory_gb_hour_cents : Nat
  minimum_cents : Nat
deriving DecidableEq

/-- `NodeSettings` from main.rs. -/
structure NodeSettings where
  orchestrator_url : String
  auto_start : Bool
  start_minimized : Bool
  wallet_address : String
  max_concurrent_jobs : Nat
  max_memory_percent : Nat
  pricing : PricingConfig
deriving DecidableEq

/-- `impl Default for NodeSettings` from main.rs. -/
def NodeSettings.default : NodeSettings :=
  { orchestrator_url := "http://localhost:8080"
    auto_start := false
    start_minimized := false
    wallet_address := ""
    max_concurrent_jobs := 4
    max_memory_percent := 80
    pricing :=
      { gpu_hour_cents := 50
        cpu_core_hour_cents := 1
        memory_gb_hour_cents := 1
        minimum_cents := 1 } }

/-- The `u32` range constraint the Rust struct enforces by typing. -/
abbrev validSettings (s : NodeSettings) : Prop :=
  s.max_concurrent_jobs < 4294967296 ∧ s.max_memory_percent < 4294967296 ∧
  s.pricing.gpu_hour_cents < 4294967296 ∧ s.pricing.cpu_core_hour_cents < 4294967296 ∧
  s.pricing.memory_gb_hour_cents < 4294967296 ∧ s.pricing.minimum_cents < 4294967296

/-- `NodeStatus` from main.rs: the read-only projection of the slot. -/
structure NodeStatus where
  running : Bool
  pid : Option Nat
deriving DecidableEq

-- ============ Supervisor (NodeProcess slot) ============

/-- The supervisor slot `Mutex<Option<Child>>`; a `Child` is modelled by
its pid.  All commands run under the one lock, so sequential state
passing is the faithful picture. -/
abbrev SlotState := Option Nat

/-- Environment fixing the outcome of each OS interaction the
supervisor performs.  `spawn` takes the binary path and argument list
and yields the child pid or the OS error text; `kill` yields the error
text of a failed signal. -/
structure ProcEnv where
  windows : Bool
  currentExe : Option (List String)
  fileExists : List String → Bool
  spawn : List String → List String → Except String Nat
  kill : Nat → Except String Unit

/-- The platform-suffixed binary name chosen by `cfg!(target_os)`. -/
def nodeBinaryName (windows : Bool) : String :=
  if windows then "rhizos-node.exe" else "rhizos-node"

/-- `Path::parent`: paths are component lists; the empty path has no
parent. -/
def pathParent (p : List String) : Option (List String) :=
  if p.isEmpty then none else some p.dropLast

/-- Components of `PathBuf::from("../node-agent/target/release")`. -/
def devRelPath : List String := ["..", "node-agent", "target", "release"]

/-- `std::env::current_exe().ok().and_then(|p| p.parent().map(|p|
p.join(node_binary)))`: the candidate next to the launcher. -/
def adjacentBinary (env : ProcEnv) : Option (List String) :=
  env.currentExe.bind fun p =>
    (pathParent p).map fun q => q ++ [nodeBinaryName env.windows]

/-- The development fallback `../node-agent/target/release/<name>`. -/
def fallbackBinary (env : ProcEnv) : List String :=
  devRelPath ++ [nodeBinaryName env.windows]

/-- The `binary_path` chain in `start_node`: the adjacent candidate,
filtered by `exists()`, with `or_else(|| Some(fallback))`. -/
def binaryPath (env : ProcEnv) : Option (List String) :=
  let filtered : Option (List String) :=
    match adjacentBinary env with
    | some p => if env.fileExists p then some p else none
    | none => none
  match filtered with
  | some p => some p
  | none => some (fallbackBinary env)

/-- Result of a `start_node` call: response, slot afterwards, and the
(path, args) of every `Command::spawn` attempted during the call. -/
structure StartOut where
  res : Except String NodeStatus
  state : SlotState
  spawned : List (List String × List String)

/-- Result of a `stop_node` call: response, slot afterwards, and the
pids `kill` was sent to during the call. -/
structure StopOut where
  res : Except String NodeStatus
  state : SlotState
  killed : List Nat

/-- `get_node_status` from main.rs. -/
def get_node_status (st : SlotState) : NodeStatus :=
  match st with
  | some child => { running := true, pid := some child }
  | none => { running := false, pid := none }

/-- `start_node` from main.rs.  Under the lock: fail if the slot is
occupied; resolve the binary; `ok_or` on the (always-`some`) path;
spawn; on success store the child and report its pid. -/
def start_node (env : ProcEnv) (st : SlotState) (orchestrator_url : String) :
    StartOut :=
  match st with
  | some child =>
      { res := Except.error "Node is already running"
        state := some child
        spawned := [] }
  | none =>
      match binaryPath env with
      | none =>
          { res := Except.error "Could not find node-agent binary"
            state := none
            spawned := [] }
      | some path =>
          let args := ["start", "--orchestrator", orchestrator_url]
          match env.spawn path args with
          | Except.error e =>
              { res := Except.error ("Failed to start node: " ++ e)
                state := none
                spawned := [(path, args)] }
          | Except.ok pid =>
              { res := Except.ok { running := true, pid := some pid }
                state := some pid
                spawned := [(path, args)] }

/-- `stop_node` from main.rs.  `guard.take()` empties the slot before
`kill` runs, so the slot is `none` afterwards on every path, a failed
`kill` included; `child.wait().ok()` discards the wait result. -/
def stop_node (env : ProcEnv) (st : SlotState) : StopOut :=
  match st with
  | none =>
      { res := Except.ok { running := false, pid := none }
        state := none
        killed := [] }
  | some child =>
      match env.kill child with
      | Except.error e =>
          { res := Except.error ("Failed to stop node: " ++ e)
            state := none
            killed := [child] }
      | Except.ok _ =>
          { res := Except.ok { running := false, pid := none }
            state := none
            killed := [child] }

/-- Whether a command response is a success. -/
def isOkB (r : Except String NodeStatus) : Bool :=
  match r with
  | Except.ok _ => true
  | Except.error _ => false

/-- Whether a response is the `BinaryNotFound` error string. -/
def isBinaryNotFoundErr (r : Except String NodeStatus) : Bool :=
  match r with
  | Except.error e => e == "Could not find node-agent binary"
  | Except.ok _ => false

-- ============ Call traces over the supervisor ============

/-- One UI-triggered supervisor mutation. -/
inductive NodeOp where
  | start (url : String)
  | stop
deriving DecidableEq

/-- Whether an operation is a `start`. -/
def NodeOp.isStart : NodeOp → Bool
  | NodeOp.start _ => true
  | NodeOp.stop => false

/-- Execute one operation: the slot afterwards and whether the call
succeeded. -/
def stepOp (env : ProcEnv) (st : SlotState) : NodeOp → SlotState × Bool
  | NodeOp.start url =>
      let o := start_node env st url
      (o.state, isOkB o.res)
  | NodeOp.stop =>
      let o := stop_node env st
      (o.state, isOkB o.res)

/-- Execute a sequence of operations from a given slot state; returns
the final slot and the per-call log of (operation, succeeded). -/
def runTrace (env : ProcEnv) (st : SlotState) : List NodeOp → SlotState × List (NodeOp × Bool)
  | [] => (st, [])
  | op :: rest =>
      let s := stepOp env st op
      let r := runTrace env s.1 rest
      (r.1, (op, s.2) :: r.2)

/-- The most recent successful call of a log (rightmost entry whose
flag is `true`), as the spec's "most recent successful transition". -/
def lastSuccessful : List (NodeOp × Bool) → Option NodeOp
  | [] => none
  | e :: rest =>
      match lastSuccessful rest with
      | some x => some x
      | none => if e.2 then some e.1 else none

/-- The most recent slot-affecting call of a log: a `stop` of either
outcome (it always empties the slot via `take`) or a successful
`start`. -/
def lastSlotEvent : List (NodeOp × Bool) → Option (NodeOp × Bool)
  | [] => none
  | e :: rest =>
      match lastSlotEvent rest with
      | some x => some x
      | none => if !e.1.isStart || e.2 then some e else none

-- ============ Settings store ============

/-- Content of the settings file as `read_to_string` + `serde_json`
see it: text that parses to a JSON value, or text that does not. -/
inductive FileData where
  | json (j : JsonVal)
  | malformed

/-- Filesystem environment for the settings store.  `configDir`:
outcome of `ProjectDirs::from("com","rhizos","cloud")`.  `createDirErr`
/ `writeErr`: OS error text when `create_dir_all` / `fs::write` fails.
`fileRead`: outcome of `read_to_string` on `settings.json` (`none`
covers both a missing and an unreadable file, as `.ok()?` collapses
every read error). -/
structure SettingsFs where
  configDir : Option String
  createDirErr : Option String
  writeErr : Option String
  fileRead : Option FileData

/-- serde field lookup in a JSON object (first match). -/
def lookupField : List (String × JsonVal) → String → Option JsonVal
  | [], _ => none
  | (k, v) :: rest, key => if k == key then some v else lookupField rest key

/-- Field access on a JSON value: only objects have fields. -/
def jsonField : JsonVal → String → Option JsonVal
  | JsonVal.obj fs, key => lookupField fs key
  | _, _ => none

/-- serde deserialization of a `String` field. -/
def asStr : JsonVal → Option String
  | JsonVal.str s => some s
  | _ => none

/-- serde deserialization of a `bool` field. -/
def asBool : JsonVal → Option Bool
  | JsonVal.bool b => some b
  | _ => none

/-- serde deserialization of a `u32` field: a JSON number within the
`u32` range. -/
def asU32 : JsonVal → Option Nat
  | JsonVal.num n => if n < 4294967296 then some n else none
  | _ => none

/-- Derived `Serialize` for `PricingConfig`: an object with the fields
in declaration order. -/
def encodePricing (p : PricingConfig) : JsonVal :=
  JsonVal.obj
    [("gpu_hour_cents", JsonVal.num p.gpu_hour_cents),
     ("cpu_core_hour_cents", JsonVal.num p.cpu_core_hour_cents),
     ("memory_gb_hour_cents", JsonVal.num p.memory_gb_hour_cents),
     ("minimum_cents", JsonVal.num p.minimum_cents)]

/-- Derived `Serialize` for `NodeSettings`. -/
def encodeSettings (s : NodeSettings) : JsonVal :=
  JsonVal.obj
    [("orchestrator_url", JsonVal.str s.orchestrator_url),
     ("auto_start", JsonVal.bool s.auto_start),
     ("start_minimized", JsonVal.bool s.start_minimized),
     ("wallet_address", JsonVal.str s.wallet_address),
     ("max_concurrent_jobs", JsonVal.num s.max_concurrent_jobs),
     ("max_memory_percent", JsonVal.num s.max_memory_percent),
     ("pricing", encodePricing s.pricing)]

/-- Derived `Deserialize` for `PricingConfig`: every field must be
present with the right type; unknown fields are ignored. -/
def decodePricing (j : JsonVal) : Option PricingConfig := do
  let gpu ← (jsonField j "gpu_hour_cents").bind asU32
  let cpu ← (jsonField j "cpu_core_hour_cents").bind asU32
  let mem ← (jsonField j "memory_gb_hour_cents").bind asU32
  let mn ← (jsonField j "minimum_cents").bind asU32
  pure ⟨gpu, cpu, mem, mn⟩

/-- Derived `Deserialize` for `NodeSettings`. -/
def decodeSettings (j : JsonVal) : Option NodeSettings := do
  let url ← (jsonField j "orchestrator_url").bind asStr
  let auto ← (jsonField j "auto_start").bind asBool
  let mini ← (jsonField j "start_minimized").bind asBool
  let wallet ← (jsonField j "wallet_address").bind asStr
  let jobs ← (jsonField j "max_concurrent_jobs").bind asU32
  let memp ← (jsonField j "max_memory_percent").bind asU32
  let pr ← (jsonField j "pricing").bind decodePricing
  pure ⟨url, auto, mini, wallet, jobs, memp, pr⟩

/-- `load_settings` from main.rs: config dir, read, decode; any
failure yields `none`. -/
def load_settings (fs : SettingsFs) : Option NodeSettings :=
  match fs.configDir with
  | none => none
  | some _ =>
      match fs.fileRead with
      | none => none
      | some FileData.malformed => none
      | some (FileData.json j) => decodeSettings j

/-- `get_settings` from main.rs: `load_settings().unwrap_or_default()`. -/
def get_settings (fs : SettingsFs) : NodeSettings :=
  (load_settings fs).getD NodeSettings.default

/-- `save_settings` from main.rs.  `serde_json::to_string_pretty` is
total on this data type (its only failure modes do not arise for
derived impls over strings, bools and integers), so serialization is
the total `encodeSettings`; on success the settings file now reads
back as that JSON value. -/
def save_settings (fs : SettingsFs) (s : NodeSettings) : Except String SettingsFs :=
  match fs.configDir with
  | none => Except.error "Could not determine config directory"
  | some _ =>
      match fs.createDirErr with
      | some e => Except.error ("Failed to create config directory: " ++ e)
      | none =>
          match fs.writeErr with
          | some e => Except.error ("Failed to write settings: " ++ e)
          | none => Except.ok { fs with fileRead := some (FileData.json (encodeSettings s)) }

-- ============ Hardware info stub ============

/-- `MemoryInfo` from main.rs. -/
structure MemoryInfo where
  total_mb : Nat
  available_mb : Nat
deriving DecidableEq

/-- `GpuInfo` from main.rs. -/
structure GpuInfo where
  model : String
  vram_mb : Nat
  driver_version : String
deriving DecidableEq

/-- `StorageInfo` from main.rs. -/
structure StorageInfo where
  total_gb : Nat
  available_gb : Nat
deriving DecidableEq

/-- `CpuInfo` from main.rs. -/
structure CpuInfo where
  model : String
  cores : Nat
  threads : Nat
deriving DecidableEq

/-- `HardwareInfo` from main.rs. -/
structure HardwareInfo where
  cpu : CpuInfo
  memory : MemoryInfo
  gpus : List GpuInfo
  storage : StorageInfo
  docker_version : Option String
deriving DecidableEq

/-- The live CPU-count queries `num_cpus::get_physical()` and
`num_cpus::get()`. -/
structure HwEnv where
  physicalCpus : Nat
  logicalCpus : Nat

/-- `get_hardware_info` from main.rs: always `Ok`, placeholder values
everywhere except the two CPU counts (`as u32` truncates). -/
def get_hardware_info (env : HwEnv) : Except String HardwareInfo :=
  Except.ok
    { cpu :=
        { model := "Unknown"
          cores := env.physicalCpus % 4294967296
          threads := env.logicalCpus % 4294967296 }
      memory := { total_mb := 0, available_mb := 0 }
      gpus := []
      storage := { total_gb := 0, available_gb := 0 }
      docker_version := none }

-- ============ Concrete environments and inputs ============

/-- The binary path `binaryPath` actually yields: the adjacent
candidate when it resolves and exists, the fallback otherwise. -/
def resolvedBinary (env : ProcEnv) : List String :=
  match adjacentBinary env with
  | some p => if env.fileExists p then p else fallbackBinary env
  | none => fallbackBinary env

/-- Environment whose spawn fails with an OS error. -/
def envSpawnFail : ProcEnv :=
  { windows := false
    currentExe := none
    fileExists := fun _ => false
    spawn := fun _ _ => Except.error "ENOENT"
    kill := fun _ => Except.ok () }

/-- Environment whose spawn succeeds with pid 42. -/
def envSpawnOk : ProcEnv :=
  { windows := false
    currentExe := none
    fileExists := fun _ => false
    spawn := fun _ _ => Except.ok 42
    kill := fun _ => Except.ok () }

/-- Environment whose kill fails with EPERM. -/
def envKillFail : ProcEnv :=
  { windows := false
    currentExe := none
    fileExists := fun _ => false
    spawn := fun _ _ => Except.ok 0
    kill := fun _ => Except.error "EPERM" }

/-- Environment where the current executable path is unresolvable. -/
def envNoExe : ProcEnv :=
  { windows := false
    currentExe := none
    fileExists := fun _ => true
    spawn := fun _ _ => Except.error "ENOENT"
    kill := fun _ => Except.ok () }

/-- Environment where spawn succeeds (pid 5) and kill fails. -/
def envC1 : ProcEnv :=
  { windows := false
    currentExe := none
    fileExists := fun _ => false
    spawn := fun _ _ => Except.ok 5
    kill := fun _ => Except.error "EPERM" }

/-- A successful start followed by a stop whose kill fails. -/
def opsC1 : List NodeOp := [NodeOp.start "http://orch:8080", NodeOp.stop]

/-- Settings with the boundary values `max_concurrent_jobs = 0` and
`pricing.minimum_cents = 0`. -/
def wSettings : NodeSettings :=
  { orchestrator_url := "http://x:9"
    auto_start := false
    start_minimized := false
    wallet_address := ""
    max_concurrent_jobs := 0
    max_memory_percent := 80
    pricing :=
      { gpu_hour_cents := 50
        cpu_core_hour_cents := 1
        memory_gb_hour_cents := 1
        minimum_cents := 0 } }

/-- A healthy filesystem with no settings file yet. -/
def wFs : SettingsFs :=
  { configDir := some "config", createDirErr := none, writeErr := none, fileRead := none }

/-- `wFs` after a successful save of `wSettings`. -/
def wFs2 : SettingsFs :=
  { configDir := some "config", createDirErr := none, writeErr := none
    fileRead := some (FileData.json (encodeSettings wSettings)) }

/-- A filesystem whose settings file is missing or unreadable. -/
def fsMissing : SettingsFs :=
  { configDir := some "config", createDirErr := none, writeErr := none, fileRead := none }

-- ============ Helper lemmas ============

/-- `stop_node` empties the slot on every path (`guard.take()`). -/
lemma stop_node_state (env : ProcEnv) (st : SlotState) :
    (stop_node env st).state = none := by
  cases st with
  | none => rfl
  | some c => cases h : env.kill c <;> simp [stop_node, h]

/-- `binaryPath` in closed form: always `some`, preferring the
existing adjacent candidate. -/
lemma binaryPath_eq (env : ProcEnv) :
    binaryPath env = some (resolvedBinary env) := by
  cases hab : adjacentBinary env with
  | none => simp [binaryPath, resolvedBinary, hab]
  | some p => cases hfe : env.fileExists p <;> simp [binaryPath, resolvedBinary, hab, hfe]

/-- Derived serde round trip: decoding an encoded `NodeSettings`
recovers it, given the `u32` bounds the Rust type guarantees. -/
lemma decode_encode (s : NodeSettings) (hv : validSettings s) :
    decodeSettings (encodeSettings s) = some s := by
  obtain ⟨h1, h2, h3, h4, h5, h6⟩ := hv
  cases s with
  | mk url auto mini wallet jobs memp pr =>
    cases pr with
    | mk gpu cpu mem mn =>
      simp only [] at h1 h2 h3 h4 h5 h6
      simp [decodeSettings, encodeSettings, decodePricing, encodePricing,
            jsonField, lookupField, asStr, asBool, asU32, Option.bind,
            h1, h2, h3, h4, h5, h6]

/-- Per-step slot law: a slot-affecting call (any `stop`, or a
successful `start`) determines the new slot's occupancy by itself;
any other call leaves occupancy unchanged. -/
lemma stepOp_state (env : ProcEnv) (st : SlotState) (op : NodeOp) :
    (stepOp env st op).1.isSome =
      (if !op.isStart || (stepOp env st op).2 then op.isStart && (stepOp env st op).2
       else st.isSome) := by
  cases op with
  | stop => simp [stepOp, NodeOp.isStart, stop_node_state]
  | start url =>
      cases st with
      | some c => simp [stepOp, start_node, isOkB, NodeOp.isStart]
      | none =>
          cases hbp : binaryPath env with
          | none => simp [stepOp, start_node, hbp, isOkB, NodeOp.isStart]
          | some p =>
              cases hsp : env.spawn p ["start", "--orchestrator", url] <;>
                simp [stepOp, start_node, hbp, hsp, isOkB, NodeOp.isStart]

/-- Trace-level slot law: the final slot is occupied iff the most
recent slot-affecting call was a successful `start`; with no such call
the initial occupancy persists. -/
lemma runTrace_isSome (env : ProcEnv) (ops : List NodeOp) : ∀ st : SlotState,
    (runTrace env st ops).1.isSome =
      (match lastSlotEvent (runTrace env st ops).2 with
       | some e => e.1.isStart && e.2
       | none => st.isSome) := by
  induction ops with
  | nil => intro st; rfl
  | cons op rest ih =>
      intro st
      simp only [runTrace, lastSlotEvent]
      cases hls : lastSlotEvent (runTrace env (stepOp env st op).1 rest).2 with
      | some x => rw [ih]; rw [hls]
      | none =>
          have h := ih (stepOp env st op).1
          rw [hls] at h
          have h2 := stepOp_state env st op
          cases hc : (!op.isStart || (stepOp env st op).2) with
          | true => simp [hls, hc, h, h2]
          | false => simp [hls, hc, h, h2]

-- ============ Claim theorems ============

/-- Claim C1 (counterexample): after a successful `start` followed by
a `stop` whose kill fails, the most recent successful call is still
the `start`, yet status reports `running = false` — `guard.take()`
emptied the slot before the failed kill.  This refutes "running = true
iff the most recent successful transition was a start with no
subsequent successful stop". -/
theorem statusTracksLastSuccess_cex :
    ((lastSuccessful (runTrace envC1 none opsC1).2).any NodeOp.isStart) = true ∧
      (get_node_status (runTrace envC1 none opsC1).1).running = false :=
  ⟨rfl, rfl⟩

/-- Claim C1 (amended): for every sequence of `start`/`stop` calls,
status reports `running` exactly when the slot is occupied and `pid`
is exactly the slot's content (so `pid` is `Some` iff `running`); and
the slot is occupied iff the most recent slot-affecting call — a
successful `start`, or a `stop` of either outcome (a failed `stop`
also empties the slot) — was a successful `start`. -/
theorem statusTracksSlot (env : ProcEnv) (ops : List NodeOp) :
    (get_node_status (runTrace env none ops).1).running = (runTrace env none ops).1.isSome ∧
      (get_node_status (runTrace env none ops).1).pid = (runTrace env none ops).1 ∧
      (runTrace env none ops).1.isSome =
        (match lastSlotEvent (runTrace env none ops).2 with
         | some e => e.1.isStart && e.2
         | none => false) := by
  refine ⟨?_, ?_, ?_⟩
  · cases (runTrace env none ops).1 <;> rfl
  · cases (runTrace env none ops).1 <;> rfl
  · simpa using runTrace_isSome env ops none

/-- Claim C3: while the slot holds a handle, `start_node` fails with
"Node is already running", attempts no spawn, and leaves the handle in
place. -/
theorem startWhileRunningFails (env : ProcEnv) (c : Nat) (url : String) :
    start_node env (some c) url =
      { res := Except.error "Node is already running"
        state := some c
        spawned := [] } := rfl

/-- Claim C4: with the slot empty, `stop_node` is a no-op: it sends no
kill, succeeds, and returns `{running := false, pid := none}`. -/
theorem stopWhileStoppedNoop (env : ProcEnv) :
    stop_node env none =
      { res := Except.ok { running := false, pid := none }
        state := none
        killed := [] } := rfl

/-- Claim C5 (counterexample): with the current executable path
unresolvable, binary resolution still yields the fallback path and
`start_node` does not return the "Could not find node-agent binary"
error — refuting "fails with BinaryNotFound exactly when the current
executable's path cannot be resolved". -/
theorem binaryResolution_cex :
    envNoExe.currentExe = none ∧
      binaryPath envNoExe = some ["..", "node-agent", "target", "release", "rhizos-node"] ∧
      isBinaryNotFoundErr (start_node envNoExe none "http://x").res = false :=
  ⟨rfl, rfl, rfl⟩

/-- Claim C5 (amended): binary resolution never fails — it yields the
launcher-adjacent platform-suffixed path when the launcher's directory
resolves and that file exists, and the fixed development fallback path
otherwise — so `start_node` from `Stopped` always reaches spawn with
exactly that path. -/
theorem binaryResolutionTotal (env : ProcEnv) (url : String) :
    binaryPath env = some (resolvedBinary env) ∧
      (start_node env none url).spawned =
        [(resolvedBinary env, ["start", "--orchestrator", url])] := by
  refine ⟨binaryPath_eq env, ?_⟩
  cases hsp : env.spawn (resolvedBinary env) ["start", "--orchestrator", url] <;>
    simp [start_node, binaryPath_eq env, hsp]

/-- Claim C6 (counterexample): a `stop_node` whose kill fails returns
an error, yet the slot no longer holds the handle and status reports
`running = false` — refuting "the slot still holds the handle". -/
theorem stopKillFailure_cex :
    isOkB (stop_node envKillFail (some 7)).res = false ∧
      (stop_node envKillFail (some 7)).state = none ∧
      (get_node_status (stop_node envKillFail (some 7)).state).running = false :=
  ⟨rfl, rfl, rfl⟩

/-- Claim C6 (amended): if the kill signal fails, `stop_node` returns
the "Failed to stop node" error, but `guard.take()` has already
emptied the slot, so a subsequent status read reports
`{running := false, pid := none}`. -/
theorem stopKillFailureClearsSlot (env : ProcEnv) (c : Nat) (e : String)
    (h : env.kill c = Except.error e) :
    (stop_node env (some c)).res = Except.error ("Failed to stop node: " ++ e) ∧
      (stop_node env (some c)).state = none ∧
      get_node_status (stop_node env (some c)).state = { running := false, pid := none } := by
  simp [stop_node, h, get_node_status]

/-- Claim C6 (witness): the amended claim at a concrete environment
whose kill fails with EPERM. -/
theorem stopKillFailureClearsSlot_witness :
    (stop_node envKillFail (some 7)).res = Except.error ("Failed to stop node: " ++ "EPERM") ∧
      (stop_node envKillFail (some 7)).state = none :=
  ⟨(stopKillFailureClearsSlot envKillFail 7 "EPERM" rfl).1,
   (stopKillFailureClearsSlot envKillFail 7 "EPERM" rfl).2.1⟩

/-- Claim C7: a failed `start_node` from `Stopped` leaves the slot
empty, so status still reads `{running := false, pid := none}` and a
retry is possible. -/
theorem startFailureLeavesStopped (env : ProcEnv) (url : String)
    (h : isOkB (start_node env none url).res = false) :
    (start_node env none url).state = none ∧
      get_node_status (start_node env none url).state = { running := false, pid := none } := by
  cases hbp : binaryPath env with
  | none => simp [start_node, hbp, get_node_status]
  | some p =>
      cases hsp : env.spawn p ["start", "--orchestrator", url] with
      | error e => simp [start_node, hbp, hsp, get_node_status]
      | ok pid => exfalso; simp [start_node, hbp, hsp, isOkB] at h

/-- Claim C7 (witness): the claim at a concrete environment whose
spawn fails. -/
theorem startFailureLeavesStopped_witness :
    isOkB (start_node envSpawnFail none "http://x").res = false ∧
      (start_node envSpawnFail none "http://x").state = none :=
  ⟨rfl, (startFailureLeavesStopped envSpawnFail "http://x" rfl).1⟩

/-- Claim C9: a successful `start_node` spawns the resolved binary
with exactly `["start", "--orchestrator", url]`, stores the child's
pid in the slot, and returns `{running := true, pid := some pid}`. -/
theorem startSuccessSpawnsAndStores (env : ProcEnv) (url : String)
    (path : List String) (pid : Nat)
    (hbp : binaryPath env = some path)
    (hsp : env.spawn path ["start", "--orchestrator", url] = Except.ok pid) :
    start_node env none url =
      { res := Except.ok { running := true, pid := some pid }
        state := some pid
        spawned := [(path, ["start", "--orchestrator", url])] } := by
  simp [start_node, hbp, hsp]

/-- Claim C9 (witness): the claim at a concrete environment spawning
pid 42 from the fallback path. -/
theorem startSuccessSpawnsAndStores_witness :
    start_node envSpawnOk none "http://orch:8080" =
      { res := Except.ok { running := true, pid := some 42 }
        state := some 42
        spawned := [(devRelPath ++ ["rhizos-node"],
                     ["start", "--orchestrator", "http://orch:8080"])] } :=
  startSuccessSpawnsAndStores envSpawnOk "http://orch:8080"
    (devRelPath ++ ["rhizos-node"]) 42 rfl rfl

/-- Claim C2: whenever `save_settings` succeeds, a subsequent load
(`load_settings` / `get_settings`) returns a record equal to the saved
settings, for every settings value within the `u32` bounds the Rust
type guarantees. -/
theorem saveLoadRoundTrip (fs : SettingsFs) (s : NodeSettings) (fs2 : SettingsFs)
    (hv : validSettings s) (hs : save_settings fs s = Except.ok fs2) :
    load_settings fs2 = some s ∧ get_settings fs2 = s := by
  cases hcd : fs.configDir with
  | none => simp [save_settings, hcd] at hs
  | some d =>
      cases hce : fs.createDirErr with
      | some e => simp [save_settings, hcd, hce] at hs
      | none =>
          cases hwe : fs.writeErr with
          | some e => simp [save_settings, hcd, hce, hwe] at hs
          | none =>
              simp [save_settings, hcd, hce, hwe] at hs
              subst hs
              constructor
              · simp [load_settings, hcd, decode_encode s hv]
              · simp [get_settings, load_settings, hcd, decode_encode s hv]

/-- Claim C2 (witness): the round trip at the boundary settings value
(`max_concurrent_jobs = 0`, `pricing.minimum_cents = 0`) on a healthy
filesystem. -/
theorem saveLoadRoundTrip_witness :
    validSettings wSettings ∧ save_settings wFs wSettings = Except.ok wFs2 ∧
      get_settings wFs2 = wSettings :=
  ⟨by decide, rfl, (saveLoadRoundTrip wFs wSettings wFs2 (by decide) rfl).2⟩

/-- Claim C8: when the settings file is missing or unreadable, its
text fails to parse as JSON, or its JSON fails to decode, `get_settings`
returns exactly the documented default record (and, being total, never
an error); no field-wise merge of a malformed file occurs. -/
theorem loadFailureYieldsDefaults (fs : SettingsFs)
    (h : fs.fileRead = none ∨ fs.fileRead = some FileData.malformed ∨
         (∃ j, fs.fileRead = some (FileData.json j) ∧ decodeSettings j = none)) :
    get_settings fs =
      { orchestrator_url := "http://localhost:8080"
        auto_start := false
        start_minimized := false
        wallet_address := ""
        max_concurrent_jobs := 4
        max_memory_percent := 80
        pricing :=
          { gpu_hour_cents := 50
            cpu_core_hour_cents := 1
            memory_gb_hour_cents := 1
            minimum_cents := 1 } } := by
  have hl : load_settings fs = none := by
    rcases h with h | h | ⟨j, hj, hd⟩
    · cases hcd : fs.configDir <;> simp [load_settings, hcd, h]
    · cases hcd : fs.configDir <;> simp [load_settings, hcd, h]
    · cases hcd : fs.configDir <;> simp [load_settings, hcd, hj, hd]
  simp [get_settings, hl]
  rfl

/-- Claim C8 (witness): the defaults at a concrete filesystem whose
settings file is missing. -/
theorem loadFailureYieldsDefaults_witness :
    fsMissing.fileRead = none ∧
      get_settings fsMissing =
        { orchestrator_url := "http://localhost:8080"
          auto_start := false
          start_minimized := false
          wallet_address := ""
          max_concurrent_jobs := 4
          max_memory_percent := 80
          pricing :=
            { gpu_hour_cents := 50
              cpu_core_hour_cents := 1
              memory_gb_hour_cents := 1
              minimum_cents := 1 } } :=
  ⟨rfl, loadFailureYieldsDefaults fsMissing (Or.inl rfl)⟩

/-- Claim C10: `get_hardware_info` never returns an error, and its
value is the placeholder record — zero memory and storage, no GPUs, no
docker version, CPU model "Unknown" — with only the core/thread counts
taken from the live CPU query (truncated by `as u32`). -/
theorem hardwareInfoStub (env : HwEnv) :
    ∃ info, get_hardware_info env = Except.ok info ∧
      info.cpu.model = "Unknown" ∧
      info.memory.total_mb = 0 ∧ info.memory.available_mb = 0 ∧
      info.gpus = [] ∧
      info.storage.total_gb = 0 ∧ info.storage.available_gb = 0 ∧
      info.docker_version = none ∧
      info.cpu.cores = env.physicalCpus % 4294967296 ∧
      info.cpu.threads = env.logicalCpus % 4294967296 :=
  ⟨_, rfl, rfl, rfl, rfl, rfl, rfl, rfl, rfl, rfl, rfl⟩
